import Mathlib

/-!
Shallow embedding of `src/xcodebuild.ts` (xcodebuild-mini-mcp).

The three exported functions `build`, `runTests` and `listTests` drive the
external `xcodebuild` tool.  Their interaction with the outside world
(process exit codes, combined output, JSON documents read back from result
artifacts) is modelled by explicit inputs: a `World` record holds the data
every external call of one invocation produces, and the functions below are
the pure result-interpretation logic of the source, translated line by
line.  JavaScript string primitives used by the source
(`String.prototype.split("\n")`, `Array.prototype.join("\n")`,
`String.prototype.includes`, `Array.prototype.sort` with a comparator) are
modelled by executable Lean functions with the ECMAScript semantics:
`split` on a one-character separator, `join`, literal substring containment,
and a stable sort that moves `undefined` elements to the end.
-/

namespace XcodebuildMini

/-! ### JavaScript string and array primitives -/

/-- `s.split("\n")` on the character list: splitting on every newline,
keeping empty segments, with `"" ↦ [""]` as in ECMAScript. -/
def splitLines : List Char → List (List Char)
  | [] => [[]]
  | c :: rest =>
    match splitLines rest with
    | [] => [[c]]
    | l :: ls => if c = '\n' then [] :: l :: ls else (c :: l) :: ls

/-- `s.split("\n")` at the `String` level. -/
def jsSplitNl (s : String) : List String :=
  (splitLines s.toList).map (fun l => String.mk l)

/-- `arr.join("\n")`. -/
def jsJoinNl : List String → String
  | [] => ""
  | [x] => x
  | x :: y :: xs => x ++ "\n" ++ jsJoinNl (y :: xs)

/-- `l.includes(sub)` for character lists: literal, case-sensitive substring
containment (no pattern or regex interpretation). -/
def containsSub : List Char → List Char → Bool
  | [], sub => sub.isPrefixOf ([] : List Char)
  | c :: t, sub => sub.isPrefixOf (c :: t) || containsSub t sub

/-- `s.includes(sub)` at the `String` level. -/
def jsIncludes (s sub : String) : Bool := containsSub s.toList sub.toList

/-! ### Diagnostic classification (`build`, lines 47-65 of the source) -/

/-- The two severities captured by the regex `/\d: (error|warning): /`. -/
inductive Sev where
  | error
  | warning
deriving DecidableEq, Repr

/-- One classified diagnostic line: `{ message: line, type: ... }`. -/
structure Diag where
  message : String
  type : Sev
deriving DecidableEq, Repr

/-- Does `/\d: (error|warning): /` match at the start of this suffix, and
with which capture?  `\d` is `[0-9]`; the two alternatives cannot both
match at one position. -/
def matchAt : List Char → Option Sev
  | [] => none
  | c :: rest =>
    if c.isDigit && List.isPrefixOf ": error: ".toList rest then some Sev.error
    else if c.isDigit && List.isPrefixOf ": warning: ".toList rest then some Sev.warning
    else none

/-- `line.match(/\d: (error|warning): /)`: the capture group of the leftmost
match, if any. -/
def firstMatch : List Char → Option Sev
  | [] => none
  | c :: rest =>
    match matchAt (c :: rest) with
    | some s => some s
    | none => firstMatch rest

/-- The `.map` callback of lines 50-57: an error line is always kept, a
warning line only under the `warn` opt-in, anything else becomes
`undefined` (here `none`). -/
def classifyLine (warn : Bool) (line : String) : Option Diag :=
  match firstMatch line.toList with
  | some Sev.error => some ⟨line, Sev.error⟩
  | some Sev.warning => if warn then some ⟨line, Sev.warning⟩ else none
  | none => none

/-- The sort key induced by the comparator of lines 58-63 together with
ECMAScript's rule that `undefined` elements sort after all others:
errors first, then warnings, then the `undefined` entries. -/
def sortKey : Option Diag → Nat
  | some d => match d.type with
    | Sev.error => 0
    | Sev.warning => 1
  | none => 2

/-- Stable insertion: the element goes before the first entry whose key is
not smaller.  Folding it over the list is the unique stable sort by
`sortKey`, which is what `Array.prototype.sort` (stable since ES2019, with
a comparator consistent with this key) produces. -/
def stableInsert (x : Option Diag) : List (Option Diag) → List (Option Diag)
  | [] => [x]
  | y :: ys => if sortKey x ≤ sortKey y then x :: y :: ys else y :: stableInsert x ys

/-- `.sort((a, b) => ...)` of lines 58-63: the stable sort by `sortKey`. -/
def jsSort (l : List (Option Diag)) : List (Option Diag) := l.foldr stableInsert []

/-- `.map((item) => item?.message ?? "")` of line 64. -/
def itemMessage : Option Diag → String
  | some d => d.message
  | none => ""

/-- Lines 47-65: split the combined output, classify every line, sort
errors before warnings, project back to the message text and join. -/
def errorsAndWarnings (warn : Bool) (all : String) : String :=
  jsJoinNl ((jsSort ((jsSplitNl all).map (classifyLine warn))).map itemMessage)

/-! ### `build` (lines 15-85) -/

inductive BResult where
  | success
  | failure
deriving DecidableEq, Repr

/-- The value `build` resolves with: `{ result, text }`. -/
structure BuildOutcome where
  result : BResult
  text : String
deriving DecidableEq, Repr

/-- Lines 47-85 of `build`: the outcome as a function of the external
process's exit code, its combined output `all`, execa's `shortMessage`
(absent on some failure shapes, hence `Option`) and the `warn` opt-in. -/
def build (warn : Bool) (exitCode : Int) (all : String)
    (shortMessage : Option String) : BuildOutcome :=
  let ew := errorsAndWarnings warn all
  if exitCode = 0 then
    if ew.length > 0 then
      ⟨BResult.success, "BUILD SUCCEEDED WITH WARNINGS\n" ++ ew⟩
    else
      ⟨BResult.success, "BUILD SUCCEEDED"⟩
  else
    if ew.length > 0 then
      ⟨BResult.failure, "BUILD FAILED\n" ++ ew⟩
    else
      ⟨BResult.failure, shortMessage.getD "AN UNKNOWN ERRORR HAS OCCURRED"⟩

/-! ### The external world of one `runTests`/`listTests` invocation

Each field records what one of the external calls made by `runTests` (and
the `listTests` it delegates to) produces: exit codes, captured streams,
and the parse result of each JSON document.  A `none` parse result models
the corresponding `JSON.parse`/`readFileSync`/field access throwing, with
the thrown value's rendering in the matching `...Err` field. -/

/-- One entry of `enabledTests` in the enumeration document. -/
structure EnumTest where
  identifier : String
deriving DecidableEq, Repr

/-- One value-group of the enumeration document. -/
structure EnumGroup where
  enabledTests : List EnumTest
deriving DecidableEq, Repr

/-- The enumeration document read back in `listTests` (lines 261-267). -/
structure EnumDoc where
  values : List EnumGroup
deriving DecidableEq, Repr

/-- One entry of `testFailures` in the result-artifact summary; every field
is optional and `|| "UNKNOWN"` substitutes for missing or empty ones. -/
structure TFailure where
  testName : Option String
  testIdentifierString : Option String
  failureText : Option String
deriving DecidableEq, Repr

/-- The result-artifact summary parsed on line 158; `totalTestCount`
defaults to 0 and `testFailures` to `[]` when absent (lines 163-164). -/
structure Summary where
  totalTestCount : Option Nat
  testFailures : Option (List TFailure)
deriving DecidableEq, Repr

/-- The data all external calls of one invocation produce. -/
structure World where
  buildExit : Int
  buildAll : String
  buildShortMessage : Option String
  enumExit : Int
  enumStderr : String
  enumParsed : Option EnumDoc
  enumErr : String
  xcresultExit : Int
  xcresultParsed : Option Summary
  xcresultParseErr : String
  xccovExit : Int
  xccovStdout : String
deriving DecidableEq, Repr

/-! ### `listTests` (lines 205-277) -/

/-- Lines 240-276: a non-zero enumeration exit yields the failure sentinel;
a throwing read/parse/field access (including `values[0]` on an empty
`values`) yields the parse sentinel; an empty identifier list yields the
zero-tests sentinel; otherwise the identifiers of the FIRST value-group
are joined with newlines. -/
def listTests (w : World) : String :=
  if w.enumExit ≠ 0 then "Failed to list tests: " ++ w.enumStderr
  else
    match w.enumParsed with
    | none => "Failed to parse test results: " ++ w.enumErr
    | some doc =>
      match doc.values with
      | [] => "Failed to parse test results: " ++ w.enumErr
      | g :: _ =>
        let tests := g.enabledTests.map EnumTest.identifier
        if tests.isEmpty then "No tests found for this scheme."
        else jsJoinNl tests

/-! ### `runTests` (lines 87-203) -/

/-- The external effects `runTests` performs after the preliminary build,
in order: allocating the fresh result-bundle path (lines 103-104), the
test enumeration (line 122), the test invocation with its `-only-testing`
arguments (line 135), reading the result-artifact summary (line 141), and
the coverage read (line 182). -/
inductive Action where
  | allocate
  | enumerate
  | testRun (onlyTesting : List String)
  | readSummary
  | readCoverage
deriving DecidableEq, Repr

/-- The two `execa` calls of `runTests` made without `reject: false`: their
non-zero exit rejects the promise, escaping `runTests` uncaught. -/
inductive Fault where
  | xcresultToolFailed
  | xccovFailed
deriving DecidableEq, Repr

/-- How the `runTests` promise settles: resolved with a report string, or
rejected with an uncaught fault. -/
inductive RunOutcome where
  | ok (text : String)
  | fault (f : Fault)
deriving DecidableEq, Repr

/-- JavaScript `x || d` on an optional string: missing AND empty (falsy)
both fall back to the default. -/
def jsOrStr (o : Option String) (d : String) : String :=
  match o with
  | some s => if s = "" then d else s
  | none => d

/-- Lines 171-178: one block of `failureDetails`. -/
def failureDetail (f : TFailure) : String :=
  "Test: " ++ jsOrStr f.testName "UNKNOWN" ++ "\n" ++
  "Test Identifier: " ++ jsOrStr f.testIdentifierString "UNKNOWN" ++ "\n" ++
  "Test Failure: " ++ jsOrStr f.failureText "UNKNOWN" ++ "\n" ++
  "--------------------------------"

/-- Lines 192-200: the status message of the final report. -/
def statusMessage (totalTests : Nat) (failures : List TFailure) : String :=
  if totalTests = 0 then
    "No tests were run. Are you sure the specified test(s) exist?"
  else if failures.length = 0 then "TEST SUCCEEDED"
  else "TEST FAILED\n" ++ jsJoinNl (failures.map failureDetail)

/-- Line 123-126: the tests of the (newline-split) enumeration output that
contain the filter as a literal substring, in their original order. -/
def selectTests (f : String) (l : List String) : List String :=
  l.filter (fun t => containsSub t.toList f.toList)

/-- Lines 135-202 of `runTests`: everything after the filter step.  `acts`
is the trace so far, `extraArgs` the `-only-testing` arguments pushed on
line 132. -/
def afterFilter (w : World) (coverage : Bool) (acts : List Action)
    (extraArgs : List String) : RunOutcome × List Action :=
  let acts1 := acts ++ [Action.testRun extraArgs]
  if w.xcresultExit ≠ 0 then
    (RunOutcome.fault Fault.xcresultToolFailed, acts1 ++ [Action.readSummary])
  else
    let acts2 := acts1 ++ [Action.readSummary]
    match w.xcresultParsed with
    | none =>
      (RunOutcome.ok ("Error: failed to parse test results JSON: " ++ w.xcresultParseErr),
        acts2)
    | some parsed =>
      let totalTests := parsed.totalTestCount.getD 0
      let failures := parsed.testFailures.getD []
      if coverage then
        if w.xccovExit ≠ 0 then
          (RunOutcome.fault Fault.xccovFailed, acts2 ++ [Action.readCoverage])
        else
          (RunOutcome.ok (statusMessage totalTests failures ++ "\n" ++
              ("COVERAGE:\n" ++ w.xccovStdout)),
            acts2 ++ [Action.readCoverage])
      else
        (RunOutcome.ok (statusMessage totalTests failures ++ "\n"), acts2)

/-- Lines 87-203: `runTests`.  The preliminary `build-for-testing` (line 95)
is `build` with `warn` left at its default `false`; a build failure returns
its text verbatim with nothing else performed.  Otherwise the result-bundle
path is allocated and, when a filter was supplied, `listTests`'s string is
split on newlines, filtered by literal substring containment, and turned
into `-only-testing` pairs; an empty selection returns the no-match report. -/
def runTests (w : World) (only : Option String) (coverage : Bool) :
    RunOutcome × List Action :=
  let buildResult := build false w.buildExit w.buildAll w.buildShortMessage
  if buildResult.result = BResult.failure then (RunOutcome.ok buildResult.text, [])
  else
    match only with
    | some f =>
      let allTests := listTests w
      let matchingTests :=
        (selectTests f (jsSplitNl allTests)).flatMap (fun t => ["-only-testing", t])
      if matchingTests.length = 0 then
        (RunOutcome.ok ("No tests found for the given filter: " ++ f),
          [Action.allocate, Action.enumerate])
      else
        afterFilter w coverage [Action.allocate, Action.enumerate] matchingTests
    | none => afterFilter w coverage [Action.allocate] []

/-! ### Concrete worlds used as witnesses and counterexamples -/

/-- A world whose every external call succeeds: a clean quiet build with
empty output, one enumeration value-group with two tests, and a summary of
two passed tests. -/
def wAllOk : World :=
  { buildExit := 0, buildAll := "", buildShortMessage := none,
    enumExit := 0, enumStderr := "",
    enumParsed := some ⟨[⟨[⟨"A/S/t1()"⟩, ⟨"A/S/t2()"⟩]⟩]⟩, enumErr := "",
    xcresultExit := 0, xcresultParsed := some ⟨some 2, some []⟩,
    xcresultParseErr := "", xccovExit := 0, xccovStdout := "" }

/-- Like `wAllOk` but the preliminary build-for-testing exits non-zero. -/
def wBuildFail : World := { wAllOk with buildExit := 1 }

/-- Like `wAllOk` but the summary-reading tool exits non-zero. -/
def wToolFail : World := { wAllOk with xcresultExit := 1 }

/-- Like `wAllOk` but the summary JSON does not parse. -/
def wParseFail : World :=
  { wAllOk with xcresultParsed := none,
                xcresultParseErr := "SyntaxError: Unexpected end of JSON input" }

/-- Like `wAllOk` but the enumeration document has TWO value-groups. -/
def wTwoGroups : World :=
  { wAllOk with enumParsed := some ⟨[⟨[⟨"A/S/t1()"⟩]⟩, ⟨[⟨"B/S/t2()"⟩]⟩]⟩ }

/-- Like `wAllOk` but the enumeration legitimately finds zero tests. -/
def wNoTests : World := { wAllOk with enumParsed := some ⟨[⟨[]⟩]⟩ }

/-! ### Helper lemmas: string heads, appends, substring containment -/

/-- Two strings whose first characters differ are different strings. -/
theorem ne_of_head_eq_ne {s t : String} (c c' : Char) (hs : s.data.head? = some c)
    (ht : t.data.head? = some c') (hne : c ≠ c') : s ≠ t := by
  intro he
  rw [he, ht] at hs
  exact hne (Option.some.inj hs).symm

/-- String `toList` distributes over append. -/
theorem toList_append (s t : String) : (s ++ t).toList = s.toList ++ t.toList := rfl

/-- `List.isPrefixOf` agrees with the existence of a completing suffix. -/
theorem isPrefixOf_eq_true_iff (sub l : List Char) :
    sub.isPrefixOf l = true ↔ ∃ t, sub ++ t = l := by
  induction sub generalizing l with
  | nil => simp [List.isPrefixOf]
  | cons c cs ih =>
    cases l with
    | nil => simp [List.isPrefixOf]
    | cons d ds =>
      rw [show (c :: cs).isPrefixOf (d :: ds) = (c == d && cs.isPrefixOf ds) from rfl,
        Bool.and_eq_true, beq_iff_eq, ih]
      constructor
      · rintro ⟨hcd, t, ht⟩
        exact ⟨t, by simp [hcd, ht]⟩
      · rintro ⟨t, ht⟩
        have h1 : c = d ∧ cs ++ t = ds := by simpa using ht
        exact ⟨h1.1, t, h1.2⟩

/-- `containsSub` is literal substring containment: some split of the list
around the pattern exists. -/
theorem containsSub_eq_true_iff (l sub : List Char) :
    containsSub l sub = true ↔ ∃ p q, p ++ sub ++ q = l := by
  induction l with
  | nil =>
    rw [show containsSub [] sub = sub.isPrefixOf ([] : List Char) from rfl,
      isPrefixOf_eq_true_iff]
    simp
  | cons c t ih =>
    rw [show containsSub (c :: t) sub = (sub.isPrefixOf (c :: t) || containsSub t sub)
        from rfl,
      Bool.or_eq_true, isPrefixOf_eq_true_iff, ih]
    constructor
    · rintro (⟨q, hq⟩ | ⟨p, q, h⟩)
      · exact ⟨[], q, by simpa using hq⟩
      · exact ⟨c :: p, q, by simp [h]⟩
    · rintro ⟨p, q, h⟩
      cases p with
      | nil => exact Or.inl ⟨q, by simpa using h⟩
      | cons p0 ps =>
        have h1 : p0 = c ∧ ps ++ sub ++ q = t := by simpa using h
        exact Or.inr ⟨ps, q, h1.2⟩

/-- A string always contains any of its suffixes as a substring. -/
theorem jsIncludes_append_self (pre f : String) : jsIncludes (pre ++ f) f = true := by
  rw [jsIncludes, containsSub_eq_true_iff]
  exact ⟨pre.toList, [], by rw [toList_append]; simp⟩

/-- A success outcome is not a failure outcome. -/
theorem success_not_failure {o : BuildOutcome} (h : o.result = BResult.success) :
    ¬o.result = BResult.failure := by
  rw [h]
  exact fun hc => BResult.noConfusion hc

/-- Splitting a newline-free character list returns it whole. -/
theorem splitLines_eq_single {l : List Char} (h : '\n' ∉ l) : splitLines l = [l] := by
  induction l with
  | nil => rfl
  | cons c t ih =>
    have hc : ¬c = '\n' := fun he => h (he ▸ List.mem_cons_self c t)
    have ht : '\n' ∉ t := fun hm => h (List.mem_cons_of_mem c hm)
    rw [splitLines, ih ht]
    simp [hc]

/-- Splitting a newline-free string returns it whole, as ECMAScript's
`split` does. -/
theorem jsSplitNl_eq_single {s : String} (h : '\n' ∉ s.toList) : jsSplitNl s = [s] := by
  rw [jsSplitNl, splitLines_eq_single h]
  rfl

/-- Every status message starts with the letter of one of its three fixed
prefixes. -/
theorem statusMessage_head (t : Nat) (fs : List TFailure) :
    (statusMessage t fs).data.head? = some 'N' ∨
    (statusMessage t fs).data.head? = some 'T' := by
  by_cases h : t = 0
  · left
    rw [statusMessage, if_pos h]
    decide
  · by_cases h2 : fs.length = 0
    · right
      rw [statusMessage, if_neg h, if_pos h2]
      decide
    · right
      rw [statusMessage, if_neg h, if_neg h2, String.data_append, List.head?_append]
      rfl

/-! ### Helper lemmas: the stable sort partitions by severity -/

/-- Severity of a classified item, if any. -/
def itemSev : Option Diag → Option Sev
  | some d => some d.type
  | none => none

/-- The error items of a classified line list, in original order. -/
def errItems (l : List (Option Diag)) : List (Option Diag) :=
  l.filter (fun o => itemSev o == some Sev.error)

/-- The warning items of a classified line list, in original order. -/
def warnItems (l : List (Option Diag)) : List (Option Diag) :=
  l.filter (fun o => itemSev o == some Sev.warning)

/-- The unclassified (dropped) entries, in original order. -/
def droppedItems (l : List (Option Diag)) : List (Option Diag) :=
  l.filter (fun o => (itemSev o).isNone)

theorem sortKey_of_mem_errItems {l : List (Option Diag)} {y : Option Diag}
    (h : y ∈ errItems l) : sortKey y = 0 := by
  have h2 := (List.mem_filter.mp h).2
  match y with
  | none => simp [itemSev] at h2
  | some ⟨m, Sev.error⟩ => rfl
  | some ⟨m, Sev.warning⟩ => simp [itemSev] at h2

theorem sortKey_of_mem_warnItems {l : List (Option Diag)} {y : Option Diag}
    (h : y ∈ warnItems l) : sortKey y = 1 := by
  have h2 := (List.mem_filter.mp h).2
  match y with
  | none => simp [itemSev] at h2
  | some ⟨m, Sev.error⟩ => simp [itemSev] at h2
  | some ⟨m, Sev.warning⟩ => rfl

theorem sortKey_of_mem_droppedItems {l : List (Option Diag)} {y : Option Diag}
    (h : y ∈ droppedItems l) : sortKey y = 2 := by
  have h2 := (List.mem_filter.mp h).2
  match y with
  | none => rfl
  | some ⟨m, ty⟩ => simp [itemSev] at h2

theorem stableInsert_of_le {x y : Option Diag} {l : List (Option Diag)}
    (h : sortKey x ≤ sortKey y) : stableInsert x (y :: l) = x :: y :: l := by
  simp [stableInsert, h]

theorem stableInsert_of_gt {x y : Option Diag} {l : List (Option Diag)}
    (h : sortKey y < sortKey x) : stableInsert x (y :: l) = y :: stableInsert x l := by
  simp [stableInsert, Nat.not_le.mpr h]

theorem stableInsert_all_ge (x : Option Diag) (l : List (Option Diag))
    (h : ∀ y ∈ l, sortKey x ≤ sortKey y) : stableInsert x l = x :: l := by
  cases l with
  | nil => rfl
  | cons y ys => exact stableInsert_of_le (h y (List.mem_cons_self y ys))

theorem stableInsert_append_lt (x : Option Diag) (P l : List (Option Diag))
    (h : ∀ y ∈ P, sortKey y < sortKey x) :
    stableInsert x (P ++ l) = P ++ stableInsert x l := by
  induction P with
  | nil => rfl
  | cons p ps ih =>
    have h1 : sortKey p < sortKey x := h p (List.mem_cons_self p ps)
    have h2 : ∀ y ∈ ps, sortKey y < sortKey x :=
      fun y hy => h y (List.mem_cons_of_mem p hy)
    rw [List.cons_append, stableInsert_of_gt h1, ih h2]
    rfl

theorem errItems_cons_err (m : String) (l : List (Option Diag)) :
    errItems (some ⟨m, Sev.error⟩ :: l) = some ⟨m, Sev.error⟩ :: errItems l := rfl

theorem errItems_cons_warn (m : String) (l : List (Option Diag)) :
    errItems (some ⟨m, Sev.warning⟩ :: l) = errItems l := rfl

theorem errItems_cons_none (l : List (Option Diag)) :
    errItems (none :: l) = errItems l := rfl

theorem warnItems_cons_err (m : String) (l : List (Option Diag)) :
    warnItems (some ⟨m, Sev.error⟩ :: l) = warnItems l := rfl

theorem warnItems_cons_warn (m : String) (l : List (Option Diag)) :
    warnItems (some ⟨m, Sev.warning⟩ :: l) = some ⟨m, Sev.warning⟩ :: warnItems l := rfl

theorem warnItems_cons_none (l : List (Option Diag)) :
    warnItems (none :: l) = warnItems l := rfl

theorem droppedItems_cons_err (m : String) (l : List (Option Diag)) :
    droppedItems (some ⟨m, Sev.error⟩ :: l) = droppedItems l := rfl

theorem droppedItems_cons_warn (m : String) (l : List (Option Diag)) :
    droppedItems (some ⟨m, Sev.warning⟩ :: l) = droppedItems l := rfl

theorem droppedItems_cons_none (l : List (Option Diag)) :
    droppedItems (none :: l) = none :: droppedItems l := rfl

/-- The stable sort of the classifier's item list is exactly: all error
items in original order, then all warning items in original order, then
the dropped entries. -/
theorem jsSort_partition (l : List (Option Diag)) :
    jsSort l = errItems l ++ warnItems l ++ droppedItems l := by
  induction l with
  | nil => rfl
  | cons x l ih =>
    have hstep : jsSort (x :: l) = stableInsert x (jsSort l) := rfl
    rw [hstep, ih]
    match x with
    | some ⟨m, Sev.error⟩ =>
      rw [stableInsert_all_ge (some ⟨m, Sev.error⟩)
          (errItems l ++ warnItems l ++ droppedItems l)
          (fun y _ => Nat.zero_le (sortKey y)),
        errItems_cons_err, warnItems_cons_err, droppedItems_cons_err]
      rfl
    | some ⟨m, Sev.warning⟩ =>
      rw [List.append_assoc,
        stableInsert_append_lt (some ⟨m, Sev.warning⟩) (errItems l)
          (warnItems l ++ droppedItems l)
          (fun y hy => by rw [sortKey_of_mem_errItems hy]; exact Nat.zero_lt_one),
        stableInsert_all_ge (some ⟨m, Sev.warning⟩) (warnItems l ++ droppedItems l)
          (fun y hy => by
            rcases List.mem_append.mp hy with h | h
            · rw [sortKey_of_mem_warnItems h]; exact Nat.le_refl 1
            · rw [sortKey_of_mem_droppedItems h]; exact Nat.le_of_lt (Nat.lt_succ_self 1)),
        errItems_cons_warn, warnItems_cons_warn, droppedItems_cons_warn,
        List.append_assoc]
      rfl
    | none =>
      rw [stableInsert_append_lt none (errItems l ++ warnItems l) (droppedItems l)
          (fun y hy => by
            rcases List.mem_append.mp hy with h | h
            · rw [sortKey_of_mem_errItems h]; decide
            · rw [sortKey_of_mem_warnItems h]; decide),
        stableInsert_all_ge none (droppedItems l)
          (fun y hy => by rw [sortKey_of_mem_droppedItems hy]; exact Nat.le_refl 2),
        errItems_cons_none, warnItems_cons_none, droppedItems_cons_none]

/-! ### Claim theorems -/

/-- Claim C1 (refuted; the code is the slip): with exit code 0 and a
combined output of two lines, neither of which matches the diagnostic
pattern, `build` does NOT return the plain "BUILD SUCCEEDED" text: the
per-line entries for unmatched lines survive the sort as empty strings, so
the joined report is a nonempty run of newlines and the success-with-
warnings text is produced with a blank diagnostic block, although no
opted-in warning is present. -/
theorem build_clean_output_claims_warnings :
    (jsSplitNl "a\nb").map (classifyLine false) = [none, none] ∧
    build false 0 "a\nb" none =
      ⟨BResult.success, "BUILD SUCCEEDED WITH WARNINGS\n\n"⟩ ∧
    (build false 0 "a\nb" none).text ≠ "BUILD SUCCEEDED" := by decide

/-- Claim C2 (refuted; the code is the slip): with a non-zero exit code and
a combined output of two lines, neither of which matches the diagnostic
pattern, `build` returns "BUILD FAILED" followed by a blank diagnostics
body instead of the generic fallback message, because the newline padding
of the unmatched lines makes the joined report nonempty. -/
theorem build_failed_output_blank_diagnostics :
    (jsSplitNl "a\nb").map (classifyLine false) = [none, none] ∧
    build false 1 "a\nb" none = ⟨BResult.failure, "BUILD FAILED\n\n"⟩ ∧
    (build false 1 "a\nb" none).text ≠ "AN UNKNOWN ERRORR HAS OCCURRED" := by decide

/-- Claim C3: for every combined output and warning opt-in, the sorted item
list that `build` joins into its diagnostic report is exactly all error
items in their original output order, followed by all warning items in
their original output order (followed by the dropped unmatched entries):
every error precedes every warning and the stable sort preserves the
original order within each class. -/
theorem build_report_errors_precede_warnings (warn : Bool) (all : String) :
    jsSort ((jsSplitNl all).map (classifyLine warn)) =
      errItems ((jsSplitNl all).map (classifyLine warn)) ++
        warnItems ((jsSplitNl all).map (classifyLine warn)) ++
        droppedItems ((jsSplitNl all).map (classifyLine warn)) :=
  jsSort_partition ((jsSplitNl all).map (classifyLine warn))

/-- Claim C4: whenever the preliminary build-for-testing fails, `runTests`
returns that outcome's text verbatim and performs nothing else: no
artifact allocation, no enumeration, no test invocation, no artifact
read. -/
theorem runTests_build_failure_short_circuits (w : World) (only : Option String)
    (coverage : Bool)
    (h : (build false w.buildExit w.buildAll w.buildShortMessage).result =
      BResult.failure) :
    runTests w only coverage =
      (RunOutcome.ok (build false w.buildExit w.buildAll w.buildShortMessage).text,
        []) := by
  simp [runTests, h]

/-- Claim C4 witness: a concrete world whose build-for-testing exits 1 with
empty output; `runTests` returns the build failure text and an empty
action trace. -/
theorem runTests_build_failure_short_circuits_witness :
    (build false wBuildFail.buildExit wBuildFail.buildAll
        wBuildFail.buildShortMessage).result = BResult.failure ∧
    runTests wBuildFail (some "t1") true =
      (RunOutcome.ok "AN UNKNOWN ERRORR HAS OCCURRED", []) :=
  ⟨by decide, by
    rw [runTests_build_failure_short_circuits wBuildFail (some "t1") true (by decide)]
    decide⟩

/-- Claim C5: the selection `runTests` computes from the newline-split
enumeration output is exactly the ordered subsequence of entries that
contain the filter as a literal, case-sensitive substring: it is a sublist
of the input, membership is literal substring containment, and applying
the same filter again changes nothing. -/
theorem runTests_selection_literal_substring (L : List String) (f : String) :
    (selectTests f L).Sublist L ∧
    (∀ x, x ∈ selectTests f L ↔
      x ∈ L ∧ ∃ p q, p ++ f.toList ++ q = x.toList) ∧
    selectTests f (selectTests f L) = selectTests f L := by
  refine ⟨List.filter_sublist L, fun x => ?_, ?_⟩
  · rw [selectTests, List.mem_filter, containsSub_eq_true_iff]
  · rw [selectTests, selectTests, List.filter_filter]
    simp only [Bool.and_self]

/-- Claim C6 counterexample: with two enumerated tests and the unmatched
filter "zzz", the no-match report `runTests` returns contains the filter
but NOT the enumerated list of available identifiers. -/
theorem runTests_no_match_report_omits_available :
    listTests wAllOk = "A/S/t1()\nA/S/t2()" ∧
    runTests wAllOk (some "zzz") false =
      (RunOutcome.ok "No tests found for the given filter: zzz",
        [Action.allocate, Action.enumerate]) ∧
    jsIncludes "No tests found for the given filter: zzz" "A/S/t1()" = false ∧
    jsIncludes "No tests found for the given filter: zzz" "A/S/t2()" = false := by
  decide

/-- Claim C6 amended: when the filter matches zero entries of the
enumeration output, `runTests` returns the no-match report containing the
filter string — but not the enumerated list — and stops after the
enumeration. -/
theorem runTests_no_match_report_contains_filter (w : World) (f : String)
    (coverage : Bool)
    (hb : (build false w.buildExit w.buildAll w.buildShortMessage).result =
      BResult.success)
    (hsel : selectTests f (jsSplitNl (listTests w)) = []) :
    runTests w (some f) coverage =
      (RunOutcome.ok ("No tests found for the given filter: " ++ f),
        [Action.allocate, Action.enumerate]) ∧
    jsIncludes ("No tests found for the given filter: " ++ f) f = true := by
  refine ⟨?_, jsIncludes_append_self "No tests found for the given filter: " f⟩
  simp [runTests, success_not_failure hb, hsel]

/-- Claim C6 amended, witness: the unmatched filter "zzz" against the two
enumerated tests of `wAllOk`. -/
theorem runTests_no_match_report_contains_filter_witness :
    runTests wAllOk (some "zzz") false =
      (RunOutcome.ok "No tests found for the given filter: zzz",
        [Action.allocate, Action.enumerate]) ∧
    jsIncludes "No tests found for the given filter: zzz" "zzz" = true := by
  have h := runTests_no_match_report_contains_filter wAllOk "zzz" false
    (by decide) (by decide)
  exact ⟨by rw [h.1]; decide, by decide⟩

/-- Claim C7: when the artifact summary parses and its `testFailures`
(defaulting to empty when absent) is empty, `runTests` reports full
success exactly when `totalTestCount` (defaulting to 0 when absent) is
positive, and the distinct ambiguous no-tests-ran text when it is 0; that
text differs from the all-passed text and from every some-failed text. -/
theorem runTests_zero_tests_distinct (w : World) (s : Summary)
    (hb : (build false w.buildExit w.buildAll w.buildShortMessage).result =
      BResult.success)
    (hx : w.xcresultExit = 0)
    (hp : w.xcresultParsed = some s)
    (hf : s.testFailures.getD [] = []) :
    runTests w none false =
      (RunOutcome.ok
        ((if s.totalTestCount.getD 0 = 0 then
            "No tests were run. Are you sure the specified test(s) exist?"
          else "TEST SUCCEEDED") ++ "\n"),
        [Action.allocate, Action.testRun [], Action.readSummary]) ∧
    "No tests were run. Are you sure the specified test(s) exist?" ≠
      "TEST SUCCEEDED" ∧
    (∀ d : String,
      "No tests were run. Are you sure the specified test(s) exist?" ≠
        "TEST FAILED\n" ++ d) ∧
    (∀ t : Nat, ∀ fs : List TFailure, t ≠ 0 → fs ≠ [] →
      statusMessage t fs = "TEST FAILED\n" ++ jsJoinNl (fs.map failureDetail)) := by
  refine ⟨?_, by decide, fun d => ?_, fun t fs ht hfs => ?_⟩
  · simp [runTests, success_not_failure hb, afterFilter, hx, hp, statusMessage, hf]
  · refine ne_of_head_eq_ne 'N' 'T' rfl ?_ (by decide)
    rw [String.data_append, List.head?_append]
    rfl
  · rw [statusMessage, if_neg ht]
    have : ¬fs.length = 0 := fun hc => hfs (List.length_eq_zero.mp hc)
    rw [if_neg this]

/-- Claim C7 witness: the all-ok world's summary has two tests and no
failures, so the run is classified as full success. -/
theorem runTests_zero_tests_distinct_witness :
    runTests wAllOk none false =
      (RunOutcome.ok "TEST SUCCEEDED\n",
        [Action.allocate, Action.testRun [], Action.readSummary]) := by
  rw [(runTests_zero_tests_distinct wAllOk ⟨some 2, some []⟩
    (by decide) (by decide) (by decide) (by decide)).1]
  decide

/-- Claim C8 counterexample: a non-zero exit of the summary-reading tool is
not caught anywhere in `runTests`: the promise rejects and the fault
escapes instead of being converted into a returned descriptive error. -/
theorem runTests_summary_tool_failure_escapes :
    runTests wToolFail none false =
      (RunOutcome.fault Fault.xcresultToolFailed,
        [Action.allocate, Action.testRun [], Action.readSummary]) := by decide

/-- Claim C8 amended: the JSON-parse failure of the summary IS caught and
converted into a returned descriptive error text, distinct from every
status report; but a non-zero exit of the summary-reading tool, and of the
coverage-reading tool when coverage is requested, escape `runTests` as
uncaught faults. -/
theorem runTests_fault_and_parse_error_paths (w : World) (coverage : Bool)
    (hb : (build false w.buildExit w.buildAll w.buildShortMessage).result =
      BResult.success) :
    (w.xcresultExit ≠ 0 →
      runTests w none coverage =
        (RunOutcome.fault Fault.xcresultToolFailed,
          [Action.allocate, Action.testRun [], Action.readSummary])) ∧
    (w.xcresultExit = 0 → w.xcresultParsed = none →
      runTests w none coverage =
        (RunOutcome.ok
          ("Error: failed to parse test results JSON: " ++ w.xcresultParseErr),
          [Action.allocate, Action.testRun [], Action.readSummary])) ∧
    (∀ s : Summary, coverage = true → w.xcresultExit = 0 →
      w.xcresultParsed = some s → w.xccovExit ≠ 0 →
      runTests w none coverage =
        (RunOutcome.fault Fault.xccovFailed,
          [Action.allocate, Action.testRun [], Action.readSummary,
            Action.readCoverage])) ∧
    (∀ t : Nat, ∀ fs : List TFailure,
      "Error: failed to parse test results JSON: " ++ w.xcresultParseErr ≠
        statusMessage t fs ++ "\n") := by
  refine ⟨fun h1 => ?_, fun h1 h2 => ?_, fun s hc h1 h2 h3 => ?_, fun t fs => ?_⟩
  · simp [runTests, success_not_failure hb, afterFilter, h1]
  · simp [runTests, success_not_failure hb, afterFilter, h1, h2]
  · simp [runTests, success_not_failure hb, afterFilter, hc, h1, h2, h3]
  · have hE : ("Error: failed to parse test results JSON: " ++
        w.xcresultParseErr).data.head? = some 'E' := by
      rw [String.data_append, List.head?_append]
      rfl
    rcases statusMessage_head t fs with h | h
    · refine ne_of_head_eq_ne 'E' 'N' hE ?_ (by decide)
      rw [String.data_append, List.head?_append, h]
      rfl
    · refine ne_of_head_eq_ne 'E' 'T' hE ?_ (by decide)
      rw [String.data_append, List.head?_append, h]
      rfl

/-- Claim C8 amended, witness: a world whose summary JSON does not parse;
`runTests` returns the descriptive parse-error text. -/
theorem runTests_fault_and_parse_error_paths_witness :
    runTests wParseFail none false =
      (RunOutcome.ok
        "Error: failed to parse test results JSON: SyntaxError: Unexpected end of JSON input",
        [Action.allocate, Action.testRun [], Action.readSummary]) := by
  rw [(runTests_fault_and_parse_error_paths wParseFail false (by decide)).2.1
    (by decide) (by decide)]
  decide

/-- Claim C9 counterexample: with an enumeration document of two
value-groups, `listTests` returns only the first group's identifier and
drops the second group's entirely, instead of flattening all groups. -/
theorem listTests_drops_later_groups :
    listTests wTwoGroups = "A/S/t1()" ∧
    listTests wTwoGroups ≠ jsJoinNl ["A/S/t1()", "B/S/t2()"] ∧
    jsIncludes (listTests wTwoGroups) "B/S/t2()" = false := by decide

/-- Claim C9 amended: `listTests` returns the identifiers of the FIRST
value-group only, joined by newlines (later groups are dropped), and a
non-zero enumeration exit is reported with a failure text distinct from
the zero-tests message. -/
theorem listTests_first_group_and_distinct_failure (w : World) (g : EnumGroup)
    (rest : List EnumGroup) :
    (w.enumExit = 0 → w.enumParsed = some ⟨g :: rest⟩ → g.enabledTests ≠ [] →
      listTests w = jsJoinNl (g.enabledTests.map EnumTest.identifier)) ∧
    (w.enumExit ≠ 0 → listTests w = "Failed to list tests: " ++ w.enumStderr) ∧
    "Failed to list tests: " ++ w.enumStderr ≠ "No tests found for this scheme." := by
  refine ⟨fun h1 h2 h3 => ?_, fun h1 => ?_, ?_⟩
  · rcases hge : g.enabledTests with _ | ⟨t0, ts⟩
    · exact absurd hge h3
    · simp [listTests, h1, h2, hge]
  · simp [listTests, h1]
  · refine ne_of_head_eq_ne 'F' 'N' ?_ rfl (by decide)
    rw [String.data_append, List.head?_append]
    rfl

/-- Claim C10: when the build succeeds, the enumeration output `runTests`
splits and filters is whatever single-line string `listTests` returned —
its sentinel messages included — so any filter contained in that line
makes `runTests` pass the line itself to the test invocation as the
`-only-testing` selection instead of reporting the enumeration outcome. -/
theorem runTests_sentinel_passed_as_selection (w : World) (f : String)
    (coverage : Bool)
    (hb : (build false w.buildExit w.buildAll w.buildShortMessage).result =
      BResult.success)
    (hnl : '\n' ∉ (listTests w).toList)
    (hsub : jsIncludes (listTests w) f = true) :
    ∃ (out : RunOutcome) (tail : List Action),
      runTests w (some f) coverage =
        (out, [Action.allocate, Action.enumerate,
          Action.testRun ["-only-testing", listTests w]] ++ tail) := by
  have hsel : selectTests f (jsSplitNl (listTests w)) = [listTests w] := by
    rw [jsSplitNl_eq_single hnl, selectTests]
    rw [jsIncludes] at hsub
    have hsub2 : containsSub (listTests w).data f.data = true := hsub
    simp [List.filter, hsub2]
  have hrun : runTests w (some f) coverage =
      afterFilter w coverage [Action.allocate, Action.enumerate]
        ["-only-testing", listTests w] := by
    simp [runTests, success_not_failure hb, hsel]
  rw [hrun, afterFilter]
  by_cases h1 : w.xcresultExit ≠ 0
  · exact ⟨RunOutcome.fault Fault.xcresultToolFailed, [Action.readSummary],
      by simp [h1]⟩
  · rcases hp : w.xcresultParsed with _ | s
    · exact ⟨RunOutcome.ok ("Error: failed to parse test results JSON: " ++
        w.xcresultParseErr), [Action.readSummary], by simp [h1, hp]⟩
    · by_cases hc : coverage
      · by_cases h2 : w.xccovExit ≠ 0
        · exact ⟨RunOutcome.fault Fault.xccovFailed,
            [Action.readSummary, Action.readCoverage], by simp [h1, hp, hc, h2]⟩
        · exact ⟨RunOutcome.ok (statusMessage (s.totalTestCount.getD 0)
              (s.testFailures.getD []) ++ "\n" ++
              ("COVERAGE:\n" ++ w.xccovStdout)),
            [Action.readSummary, Action.readCoverage], by simp [h1, hp, hc, h2]⟩
      · exact ⟨RunOutcome.ok (statusMessage (s.totalTestCount.getD 0)
            (s.testFailures.getD []) ++ "\n"),
          [Action.readSummary], by simp [h1, hp, hc]⟩

/-- Claim C10 witness: enumeration legitimately finds zero tests, so
`listTests` returns its zero-tests sentinel; the filter "tests" is a
substring of that sentinel, and the sentinel line itself is passed as the
`-only-testing` selection of the test invocation. -/
theorem runTests_sentinel_passed_as_selection_witness :
    listTests wNoTests = "No tests found for this scheme." ∧
    ∃ (out : RunOutcome) (tail : List Action),
      runTests wNoTests (some "tests") false =
        (out, [Action.allocate, Action.enumerate,
          Action.testRun ["-only-testing", "No tests found for this scheme."]] ++
          tail) := by
  refine ⟨by decide, ?_⟩
  have h := runTests_sentinel_passed_as_selection wNoTests "tests" false
    (by decide) (by decide) (by decide)
  rwa [show listTests wNoTests = "No tests found for this scheme." from by decide] at h

end XcodebuildMini
